import Mathlib

/-!
Verification of the quasar configuration-file subsystem
(`QuasarConfigFile` in the app-webpack CLI): compilation of the user's
quasar.config file, loading, normalization into a canonical configuration,
snapshot diffing and the watch-mode debounced update scheduler.

The JavaScript source is shallowly embedded: pure helpers become Lean
functions on `String`/`List Char`, JS values relevant to the snapshot
serialization become an inductive `JValue`, and the stateful watch /
compute-config logic becomes explicit state-passing step functions.
-/

/-! ## String helpers (source lines 22, 57-75)

JS strings are modelled through their character lists.  `charsLead p l`
holds when `p` is a leading run of `l`; the regex `^http(s)?:\/\//` of
line 22 matches exactly the strings beginning with `http://` or
`https://`. -/

def charsLead : List Char → List Char → Bool
  | [], _ => true
  | _ :: _, [] => false
  | a :: as, b :: bs => a == b && charsLead as bs

def httpMarker : List Char := ['h', 't', 't', 'p', ':', '/', '/']

def httpsMarker : List Char := ['h', 't', 't', 'p', 's', ':', '/', '/']

/-- `urlRegex.test(path)` of source line 22/66: the regex `^http(s)?:\/\//`. -/
def urlRegexTestL (l : List Char) : Bool :=
  charsLead httpMarker l || charsLead httpsMarker l

/-- Lines 66-74 of `formatPublicPath`, after the trailing slash has been
ensured: absolute URLs pass through, other paths are forced to start
with `'/'`. -/
def formatPublicPathTail (p : List Char) : List Char :=
  if urlRegexTestL p then p
  else if p.head? = some '/' then p else '/' :: p

/-- `formatPublicPath` (source lines 57-75) on character lists.
`!path` on a JS string is emptiness; `path.endsWith('/')` is the last
character being `'/'`; `path.startsWith('/')` is the first character
being `'/'`. -/
def formatPublicPathL (l : List Char) : List Char :=
  if l = [] then []
  else formatPublicPathTail (if l.getLast? = some '/' then l else l ++ ['/'])

/-- `formatPublicPath` (source lines 57-75). -/
def formatPublicPath (s : String) : String := ⟨formatPublicPathL s.data⟩

/-- JS `s.endsWith('/')`. -/
def jsEndsWithSlash (s : String) : Bool := s.data.getLast? == some '/'

/-- JS `s.startsWith('/')`. -/
def jsStartsWithSlash (s : String) : Bool := s.data.head? == some '/'

/-- `urlRegex.test(s)` on strings (source line 22). -/
def urlRegexTest (s : String) : Bool := urlRegexTestL s.data

/-! ## Dev-server host/port defaults (source lines 386-399)

JS truthiness on the values involved: an absent field and the empty
string/0 are falsy.  `resolveDevHost`/`resolveDevPort` return the value
of `cfg.devServer.host` / `cfg.devServer.port` after the defaulting
block. -/

def truthyStr : Option String → Bool
  | none => false
  | some s => s ≠ ""

def truthyNat : Option Nat → Bool
  | none => false
  | some n => n ≠ 0

/-- Source lines 387-392: `opts.host` wins when truthy, else a truthy
`cfg.devServer.host` is kept, else `'0.0.0.0'`. -/
def resolveDevHost (optsHost cfgHost : Option String) : String :=
  if truthyStr optsHost then optsHost.getD ""
  else if truthyStr cfgHost then cfgHost.getD "" else "0.0.0.0"

/-- Source lines 394-399: `opts.port` wins when truthy, else a truthy
`cfg.devServer.port` is kept, else `8080`. -/
def resolveDevPort (optsPort cfgPort : Option Nat) : Nat :=
  if truthyNat optsPort then optsPort.getD 0
  else if truthyNat cfgPort then cfgPort.getD 0 else 8080

/-! ## Address negotiation (source lines 401-431) -/

structure Address where
  host : String
  port : Nat
deriving DecidableEq

/-- The cached `this.address` value: `reqAddr` is the `from` (requested)
address of the negotiation, `toAddr` the negotiated one (source lines
424-430). -/
structure AddrNegotiation where
  reqAddr : Address
  toAddr : Address
deriving DecidableEq

/-- The `else` branch of lines 409-431: run `opts.onAddress` when
present (otherwise the requested address stands), `null` is the
network error (`throw new Error('NETWORK_ERROR')`, modelled as `none`),
otherwise the negotiated address is adopted and cached.  The returned
triple is (devServer host/port after the merge, new `this.address`,
whether the `onAddress` callback was invoked). -/
def negotiateAddress (onAddr : Option (Address → Option Address)) (requested : Address) :
    Option (Address × AddrNegotiation × Bool) :=
  match (match onAddr with | some f => f requested | none => some requested) with
  | none => none
  | some t => some (t, ⟨requested, t⟩, onAddr.isSome)

/-- Source lines 401-431: when `this.address` exists and its `from`
host and port both equal the newly resolved requested host and port,
the previously negotiated `to` address is reused without negotiation
and the cache is left unchanged; otherwise negotiation runs. -/
def resolveAddress (cached : Option AddrNegotiation)
    (onAddr : Option (Address → Option Address)) (requested : Address) :
    Option (Address × AddrNegotiation × Bool) :=
  match cached with
  | some c =>
    if c.reqAddr.host = requested.host ∧ c.reqAddr.port = requested.port then
      some (c.toAddr, c, false)
    else negotiateAddress onAddr requested
  | none => negotiateAddress onAddr requested

/-! ## publicPath derivation (source lines 649-652) -/

/-- Source lines 649-652:
`cfg.build.publicPath && ['spa','pwa','ssr'].includes(modeName) ?
formatPublicPath(cfg.build.publicPath) : (vueRouterMode === 'hash' ? '' : '/')`. -/
def derivePublicPath (publicPath : Option String) (modeName vueRouterMode : String) : String :=
  if truthyStr publicPath ∧ modeName ∈ ["spa", "pwa", "ssr"] then
    formatPublicPath (publicPath.getD "")
  else if vueRouterMode = "hash" then "" else "/"

/-! ## JS values and the snapshot serialization (source lines 38-44, 441-457)

`JValue` models the JS values a configuration subtree can hold: JSON
data plus `undefined` and function values.  `encode` is
`JSON.stringify(obj, replacer)` with the replacer of lines 38-44 turning
every function value into the tagged text `/fn(<source text>)`.
`JSON.stringify` escaping is modelled for the quote and backslash
characters (the configurations considered here contain no control
characters).  A JS object field holding `undefined` is omitted by
`JSON.stringify`; a top-level `undefined` stringifies to the JS value
`undefined`, modelled as `none`. -/

inductive JValue where
  | undef : JValue
  | jnull : JValue
  | jbool : Bool → JValue
  | jnum : Int → JValue
  | jstr : String → JValue
  | jarr : List JValue → JValue
  | jobj : List (String × JValue) → JValue
  | jfn : String → JValue

/-- JS truthiness of a `JValue`. -/
def truthy : JValue → Bool
  | .undef => false
  | .jnull => false
  | .jbool b => b
  | .jnum n => n ≠ 0
  | .jstr s => s ≠ ""
  | .jarr _ => true
  | .jobj _ => true
  | .jfn _ => true

/-- JS property access `v[k]`: defined fields of objects, `undefined`
everywhere else. -/
def getField : JValue → String → JValue
  | .jobj fs, k => ((fs.find? (fun p => p.1 == k)).map (fun p => p.2)).getD .undef
  | _, _ => .undef

def escapeJsonChar (c : Char) : String :=
  if c = '"' then "\\\"" else if c = '\\' then "\\\\" else String.singleton c

def escapeJson (s : String) : String := String.join (s.data.map escapeJsonChar)

def quoteJson (s : String) : String := "\"" ++ escapeJson s ++ "\""

mutual

/-- `JSON.stringify` with the function-tagging replacer of source lines
38-44.  `none` is the JS value `undefined` (returned for a top-level
`undefined`). -/
def jsonStr : JValue → Option String
  | .undef => none
  | .jnull => some "null"
  | .jbool b => some (if b then "true" else "false")
  | .jnum n => some (toString n)
  | .jstr s => some (quoteJson s)
  | .jfn src => some (quoteJson ("/fn(" ++ src ++ ")"))
  | .jarr xs => some ("[" ++ String.intercalate "," (jsonArrElems xs) ++ "]")
  | .jobj fs => some ("\x7b" ++ String.intercalate "," (jsonObjParts fs) ++ "\x7d")

/-- Array elements: an undefined element stringifies to `"null"`. -/
def jsonArrElems : List JValue → List String
  | [] => []
  | x :: xs => ((jsonStr x).getD "null") :: jsonArrElems xs

/-- Object members: fields holding `undefined` are omitted. -/
def jsonObjParts : List (String × JValue) → List String
  | [] => []
  | (k, v) :: fs =>
    match jsonStr v with
    | none => jsonObjParts fs
    | some sv => (quoteJson k ++ ":" ++ sv) :: jsonObjParts fs

end

/-- `encode` (source lines 38-44). -/
def encode (v : JValue) : Option String := jsonStr v

mutual

/-- `String(v)` as used by `Array.prototype.join`: `undefined` and
`null` convert to the empty string, other values to their JS string
conversion (`[object Object]` for plain objects, the source text for
functions, comma-joined elements for arrays). -/
def jsJoinElem : JValue → String
  | .undef => ""
  | .jnull => ""
  | .jbool b => if b then "true" else "false"
  | .jnum n => toString n
  | .jstr s => s
  | .jfn src => src
  | .jobj _ => "[object Object]"
  | .jarr xs => jsJoinArr xs

/-- `Array.prototype.toString`: elements joined with `','`. -/
def jsJoinArr : List JValue → String
  | [] => ""
  | [x] => jsJoinElem x
  | x :: xs => jsJoinElem x ++ "," ++ jsJoinArr xs

end

/-- The post-hook configuration as read by the snapshot code (source
lines 441-457): the eight whitelisted top-level subtrees plus `other`,
which stands for every field the snapshot does not read. -/
structure Conf where
  build : JValue
  ssr : JValue
  framework : JValue
  devServer : JValue
  pwa : JValue
  electron : JValue
  bex : JValue
  htmlVariables : JValue
  other : JValue

/-- `newConfigSnapshot` (source lines 442-451): the eight components in
source order.  Guards are JS truthiness tests; the `framework`
component is the raw `autoImportComponentCase` value (not encoded),
converted by `Array.prototype.join`. -/
def snapshotElems (cfg : Conf) : List String :=
  [ if truthy cfg.build then (encode cfg.build).getD "" else ""
  , if truthy cfg.ssr && truthy (getField cfg.ssr "pwa") then
      (encode (getField cfg.ssr "pwa")).getD "" else ""
  , if truthy cfg.framework then jsJoinElem (getField cfg.framework "autoImportComponentCase")
    else ""
  , if truthy cfg.devServer then (encode cfg.devServer).getD "" else ""
  , if truthy cfg.pwa then (encode cfg.pwa).getD "" else ""
  , if truthy cfg.electron then (encode cfg.electron).getD "" else ""
  , if truthy cfg.bex then (encode cfg.bex).getD "" else ""
  , if truthy cfg.htmlVariables then (encode cfg.htmlVariables).getD "" else "" ]

/-- The `.join('')` of source line 451. -/
def newConfigSnapshot (cfg : Conf) : String := String.join (snapshotElems cfg)

/-- `this.#webpackConfChanged = newConfigSnapshot !== this.#configSnapshot`
(source lines 453-455), for two consecutive cycles' configurations. -/
def snapshotChanged (prev next : Conf) : Bool :=
  !(newConfigSnapshot next == newConfigSnapshot prev)

/-- A configuration with `ssr.pwa` set to `true` and no
`autoImportComponentCase`. -/
def snapConfA : Conf :=
  { build := .undef, ssr := .jobj [("pwa", .jbool true)], framework := .jobj []
    devServer := .undef, pwa := .undef, electron := .undef, bex := .undef
    htmlVariables := .undef, other := .undef }

/-- A configuration with no `ssr.pwa` and
`framework.autoImportComponentCase` set to the string `'true'`. -/
def snapConfB : Conf :=
  { build := .undef, ssr := .jobj [], framework := .jobj [("autoImportComponentCase", .jstr "true")]
    devServer := .undef, pwa := .undef, electron := .undef, bex := .undef
    htmlVariables := .undef, other := .undef }

/-! ## The compute-config cycle (source lines 263-1130)

`#computeConfig(quasarConfigFn, failOnError)` is modelled as a step
function over the instance state it reads and writes (`this.quasarConf`,
`this.address`).  A `CycleInput` abstracts one invocation: the shape of
the loaded factory and its result (Phase A), and the conditions feeding
the error checks of Phase B that the claims are about.  The large field
derivation pipeline between those checks does not influence them and is
abstracted into the stored configuration value (the input itself). -/

structure CycleInput where
  /-- Phase A: `typeof quasarConfigFn !== 'function'` (line 264). -/
  factoryIsFunction : Bool
  /-- Phase A: `await quasarConfigFn(this.ctx)` threw (lines 275-288). -/
  factoryThrows : Bool
  /-- Phase A: `Object(userCfg) !== userCfg` (line 290). -/
  resultIsObject : Bool
  /-- `this.ctx.dev` (line 386). -/
  devMode : Bool
  /-- `this.opts.host` / `cfg.devServer.host` (lines 387-392). -/
  optsHost : Option String
  cfgHost : Option String
  /-- `this.opts.port` / `cfg.devServer.port` (lines 394-399). -/
  optsPort : Option Nat
  cfgPort : Option Nat
  /-- `this.opts.onAddress !== void 0` (line 414). -/
  hasOnAddress : Bool
  /-- What `await this.opts.onAddress(addr)` resolves to this cycle
  (`none` is `null`, the network error). -/
  onAddressRet : Option Address
  /-- `this.ctx.mode.pwa` at the check of line 876. -/
  pwaMode : Bool
  /-- `cfg.pwa.manifest.icons.length === 0` (line 901). -/
  manifestIconsEmpty : Bool
  /-- `['GenerateSW','InjectManifest'].includes(cfg.pwa.workboxPluginMode)`
  (line 907). -/
  workboxModeValid : Bool
deriving DecidableEq

/-- The instance state `#computeConfig` reads and writes. -/
structure CCState where
  /-- `this.quasarConf` (assigned only at line 1120). -/
  quasarConf : Option CycleInput
  /-- `this.address` (lines 401-431). -/
  address : Option AddrNegotiation
deriving DecidableEq

/-- How one `#computeConfig` call ends: `fatal` is `fatal(...)` /
`process.exit(1)` (the process terminates), `warned` is `warn(...)`
followed by `return` with no value, `netThrow` is the thrown
`NETWORK_ERROR`, `ok` returns the computed configuration. -/
inductive ComputeOutcome where
  | fatal : ComputeOutcome
  | warned : ComputeOutcome
  | netThrow : ComputeOutcome
  | ok : ComputeOutcome
deriving DecidableEq

/-- `#computeConfig` (source lines 263-1130), with the checks in source
order: the three Phase A checks (lines 264-297, fatal when
`failOnError`, else warn-and-return leaving the state untouched), the
development-mode address resolution (lines 386-431, a `null`
negotiation result throws `NETWORK_ERROR` regardless of the cycle), the
installable-web-app manifest and workbox-mode checks (lines 901-912,
`process.exit(1)` regardless of `failOnError`), and finally the
assignment `this.quasarConf = cfg` (line 1120). -/
def computeConfig (inp : CycleInput) (failOnError : Bool) (st : CCState) :
    ComputeOutcome × CCState :=
  if inp.factoryIsFunction = false then
    ((if failOnError then .fatal else .warned), st)
  else if inp.factoryThrows then
    ((if failOnError then .fatal else .warned), st)
  else if inp.resultIsObject = false then
    ((if failOnError then .fatal else .warned), st)
  else
    let devStep : Option (Option AddrNegotiation) :=
      if inp.devMode then
        (resolveAddress st.address
          (if inp.hasOnAddress then some (fun _ => inp.onAddressRet) else none)
          ⟨resolveDevHost inp.optsHost inp.cfgHost,
            resolveDevPort inp.optsPort inp.cfgPort⟩).map (fun r => some r.2.1)
      else some st.address
    match devStep with
    | none => (.netThrow, st)
    | some addr2 =>
      if inp.pwaMode && inp.manifestIconsEmpty then
        (.fatal, { st with address := addr2 })
      else if inp.pwaMode && !inp.workboxModeValid then
        (.fatal, { st with address := addr2 })
      else (.ok, { quasarConf := some inp, address := addr2 })

/-! ## One-shot build (source lines 142-168)

`#build`: compile, on compile failure remove the temporary artifact and
terminate fatally; load (`require`), on load failure remove the
artifact and terminate fatally; otherwise remove the artifact and
normalize.  The second component of the result is whether `tempFile`
still exists when the handling completes. -/

inductive OneShotOutcome where
  | fatalCompile : OneShotOutcome
  | fatalLoad : OneShotOutcome
  | ok : OneShotOutcome
deriving DecidableEq

def buildOneShot (compileFails loadFails : Bool) : OneShotOutcome × Bool :=
  if compileFails then (.fatalCompile, false)
  else if loadFails then (.fatalLoad, false)
  else (.ok, false)

/-! ## The watch session (source lines 170-259)

The `build.onEnd` handler of `#buildAndWatch` is a step function on the
watcher state.  esbuild writes the compiled artifact (`outfile:
tempFile`, line 33) before notifying `onEnd` whenever the rebuild
succeeded.  The debounced `scheduleUpdate` (lines 179-182) is modelled
by the `timerPending` flag together with the separate `timerFire`
transition: calling the debounced function while the timer is pending
restarts it (coalescing), and when one second passes without further
calls the timer fires `this.opts.watch[updateFn]()` once and clears
`updateFn`.  Update callbacks are invoked only by `timerFire`, never by
`buildOnEnd` itself. -/

inductive UpdateKind where
  | onBuildChange : UpdateKind
  | onAppChange : UpdateKind
deriving DecidableEq

structure WatcherState where
  /-- The `isFirst` closure variable (line 176). -/
  isFirst : Bool
  /-- `this.#isWatching`, set by `watch()` (lines 121, 138-140). -/
  isWatching : Bool
  /-- Whether `tempFile` currently exists on disk. -/
  tempFileExists : Bool
  /-- The `updateFn` closure variable (line 177): the pending severity. -/
  updateFn : Option UpdateKind
  /-- Whether the debounce timer of `scheduleUpdate` is pending. -/
  timerPending : Bool
  /-- Whether `firstBuildIsDone` has been resolved (line 235). -/
  promiseResolved : Bool
deriving DecidableEq

def initialWatcherState : WatcherState :=
  { isFirst := true, isWatching := false, tempFileExists := false
    updateFn := none, timerPending := false, promiseResolved := false }

/-- `watch()` (source lines 138-140). -/
def armWatch (st : WatcherState) : WatcherState := { st with isWatching := true }

/-- How the `#computeConfig` call of line 231 ends for this event:
`fatalExit` covers `fatal(...)`/`process.exit(1)` (the process dies),
`noConf` is the warn-and-return-no-value path (the destructuring of
line 231 then throws on the `undefined` result), `conf wc` is a
successful normalization whose snapshot comparison left
`this.#webpackConfChanged = wc`. -/
inductive BuildEndCompute where
  | fatalExit : BuildEndCompute
  | noConf : BuildEndCompute
  | conf : Bool → BuildEndCompute
deriving DecidableEq

/-- One build-finished notification: whether `result.errors` is
non-empty (line 198), whether `require(tempFile)` throws (lines
211-226), and how the normalization ends. -/
structure BuildEndEvent where
  compileErrors : Bool
  requireThrows : Bool
  compute : BuildEndCompute
deriving DecidableEq

/-- What one `onEnd` invocation did: `processed` is false exactly when
the handler returned at the `isFirst === false && isWatching === false`
guard of lines 191-194 (nothing was loaded or normalized); `warned` is
a `warn(...)` log; `fatal` is `fatal(...)`/`process.exit`; `threw` is
an exception escaping the handler. -/
structure StepInfo where
  processed : Bool
  warned : Bool
  fatal : Bool
  threw : Bool
deriving DecidableEq

/-- The `build.onEnd` handler (source lines 190-249). -/
def buildOnEnd (st : WatcherState) (e : BuildEndEvent) : WatcherState × StepInfo :=
  -- esbuild writes `outfile` before notifying onEnd when the rebuild succeeded
  let st0 : WatcherState := { st with tempFileExists := st.tempFileExists || !e.compileErrors }
  if st0.isFirst = false ∧ st0.isWatching = false then
    (st0, ⟨false, false, false, false⟩)
  else if e.compileErrors then
    -- lines 198-207: removeSync, then fatal on the first cycle, else warn
    let st1 := { st0 with tempFileExists := false }
    if st1.isFirst then (st1, ⟨true, false, true, false⟩)
    else (st1, ⟨true, true, false, false⟩)
  else if e.requireThrows then
    -- lines 211-226: removeSync, then fatal on the first cycle, else warn
    let st1 := { st0 with tempFileExists := false }
    if st1.isFirst then (st1, ⟨true, false, true, false⟩)
    else (st1, ⟨true, true, false, false⟩)
  else
    -- line 228: removeSync before normalizing
    let st1 := { st0 with tempFileExists := false }
    match e.compute with
    | .fatalExit => (st1, ⟨true, false, true, false⟩)
    | .noConf => (st1, ⟨true, false, false, true⟩)
    | .conf wc =>
      if st1.isFirst then
        -- lines 233-237: resolve the first cycle's promise, no scheduling
        ({ st1 with isFirst := false, promiseResolved := true }, ⟨true, false, false, false⟩)
      else
        -- lines 239-248: escalation-only severity update, then (re)schedule
        let fn := if st1.updateFn = some UpdateKind.onBuildChange ∨ wc = true then
          UpdateKind.onBuildChange else UpdateKind.onAppChange
        ({ st1 with updateFn := some fn, timerPending := true }, ⟨true, false, false, false⟩)

/-- The debounce timer elapsing (lines 179-182): fires the callback
named by `updateFn` and clears it.  Returns the callback invoked, if
any. -/
def timerFire (st : WatcherState) : WatcherState × Option UpdateKind :=
  if st.timerPending then
    ({ st with timerPending := false, updateFn := none }, st.updateFn)
  else (st, none)

/-- A successful non-first-cycle build-finished event whose
normalization succeeded with pipeline-affecting flag `wc`. -/
def mkSuccessEvent (wc : Bool) : BuildEndEvent := ⟨false, false, .conf wc⟩

/-- Folding a sequence of build-finished events through the handler. -/
def runBuildEnds (st : WatcherState) (es : List BuildEndEvent) : WatcherState :=
  es.foldl (fun s e => (buildOnEnd s e).1) st

/-! ## Severity escalation (source lines 239-248) -/

/-- The net effect of the escalation-only assignment of lines 242-244
over a window of pipeline-affecting flags. -/
def escalateRun (u : Option UpdateKind) (ws : List Bool) : Option UpdateKind :=
  ws.foldl (fun acc wc => some (if acc = some UpdateKind.onBuildChange ∨ wc = true
    then UpdateKind.onBuildChange else UpdateKind.onAppChange)) u

/-! ## Concrete instances used by the witnesses and counterexamples -/

/-- A cycle whose factory behaves: a function returning an object, no
dev mode, no installable-web-app mode. -/
def cInpOk : CycleInput :=
  { factoryIsFunction := true, factoryThrows := false, resultIsObject := true
    devMode := false, optsHost := none, cfgHost := none, optsPort := none, cfgPort := none
    hasOnAddress := false, onAddressRet := none
    pwaMode := false, manifestIconsEmpty := false, workboxModeValid := true }

/-- A cycle whose factory result is not an object (SchemaError). -/
def cInpSchema : CycleInput := { cInpOk with resultIsObject := false }

/-- A cycle whose default export is not a function (SchemaError). -/
def cInpNotFn : CycleInput := { cInpOk with factoryIsFunction := false }

/-- A cycle whose factory throws (RuntimeError). -/
def cInpThrows : CycleInput := { cInpOk with factoryThrows := true }

/-- A development cycle whose address negotiation returns `null`
(NetworkError). -/
def cInpNet : CycleInput := { cInpOk with devMode := true, hasOnAddress := true }

/-- An installable-web-app cycle whose manifest icon list is empty
(ManifestError). -/
def cInpManifest : CycleInput := { cInpOk with pwaMode := true, manifestIconsEmpty := true }

/-- An installable-web-app cycle whose `workboxPluginMode` is invalid
(ConfigValueError). -/
def cInpWorkbox : CycleInput := { cInpOk with pwaMode := true, workboxModeValid := false }

/-- Instance state after an earlier successful cycle. -/
def cStPrev : CCState := { quasarConf := some cInpOk, address := none }

/-- The watcher state of an armed non-first cycle with no pending
update. -/
def stArmed : WatcherState :=
  { isFirst := false, isWatching := true, tempFileExists := false
    updateFn := none, timerPending := false, promiseResolved := true }

/-- The watcher state after the first cycle resolved but before
`watch()` was called. -/
def stUnarmed : WatcherState :=
  { isFirst := false, isWatching := false, tempFileExists := false
    updateFn := none, timerPending := false, promiseResolved := true }

/-! # Theorems -/

/-! ### Lemmas about formatPublicPath -/

theorem urlTest_slash (l : List Char) : urlRegexTestL ('/' :: l) = false := by
  have h : ('h' == '/') = false := rfl
  simp [urlRegexTestL, httpMarker, httpsMarker, charsLead, h]

theorem formatPublicPathTail_props (p : List Char) (hne : p ≠ [])
    (hlast : p.getLast? = some '/') :
    formatPublicPathTail p ≠ [] ∧
    (formatPublicPathTail p).getLast? = some '/' ∧
    (urlRegexTestL (formatPublicPathTail p) = true ∨
      (formatPublicPathTail p).head? = some '/') := by
  unfold formatPublicPathTail
  by_cases hurl : urlRegexTestL p = true
  · rw [if_pos hurl]
    exact ⟨hne, hlast, Or.inl hurl⟩
  · rw [if_neg hurl]
    by_cases hhead : p.head? = some '/'
    · rw [if_pos hhead]
      exact ⟨hne, hlast, Or.inr hhead⟩
    · rw [if_neg hhead]
      refine ⟨by simp, ?_, Or.inr (by simp)⟩
      show (['/'] ++ p).getLast? = some '/'
      rw [List.getLast?_append_of_ne_nil _ hne, hlast]

theorem formatPublicPathL_props (l : List Char) (h : l ≠ []) :
    formatPublicPathL l ≠ [] ∧
    (formatPublicPathL l).getLast? = some '/' ∧
    (urlRegexTestL (formatPublicPathL l) = true ∨ (formatPublicPathL l).head? = some '/') := by
  unfold formatPublicPathL
  rw [if_neg h]
  by_cases hl : l.getLast? = some '/'
  · rw [if_pos hl]
    exact formatPublicPathTail_props l h hl
  · rw [if_neg hl]
    refine formatPublicPathTail_props _ (by simp) ?_
    exact List.getLast?_append_cons l '/' []

theorem formatPublicPathL_idem (l : List Char) :
    formatPublicPathL (formatPublicPathL l) = formatPublicPathL l := by
  by_cases h : l = []
  · simp [h, formatPublicPathL]
  · obtain ⟨hne, hlast, hshape⟩ := formatPublicPathL_props l h
    set m := formatPublicPathL l with hm
    unfold formatPublicPathL
    rw [if_neg hne, if_pos hlast]
    unfold formatPublicPathTail
    by_cases hurl : urlRegexTestL m = true
    · rw [if_pos hurl]
    · rw [if_neg hurl]
      rcases hshape with hurl' | hhead
      · exact absurd hurl' hurl
      · rw [if_pos hhead]

/-- C10: `formatPublicPath` is idempotent, and every non-empty output
ends with `'/'` and either matches the absolute-URL pattern
`^http(s)?:\/\/` or begins with `'/'` (source lines 57-75). -/
theorem c10_format_public_path (s : String) :
    formatPublicPath (formatPublicPath s) = formatPublicPath s ∧
    (formatPublicPath s ≠ "" →
      jsEndsWithSlash (formatPublicPath s) = true ∧
      (urlRegexTest (formatPublicPath s) = true ∨
        jsStartsWithSlash (formatPublicPath s) = true)) := by
  constructor
  · show (⟨formatPublicPathL (formatPublicPathL s.data)⟩ : String) = ⟨formatPublicPathL s.data⟩
    rw [formatPublicPathL_idem]
  · intro hne
    have hld : s.data ≠ [] := by
      intro hd
      apply hne
      show formatPublicPath s = ""
      have : s = "" := by
        cases s with
        | mk data => cases hd; rfl
      rw [this]
      rfl
    obtain ⟨h1, h2, h3⟩ := formatPublicPathL_props s.data hld
    refine ⟨?_, ?_⟩
    · show ((formatPublicPathL s.data).getLast? == some '/') = true
      simp [h2]
    · rcases h3 with h | h
      · exact Or.inl h
      · right
        show ((formatPublicPathL s.data).head? == some '/') = true
        simp [h]

theorem c10_format_public_path_witness :
    formatPublicPath "a" ≠ "" ∧
    (formatPublicPath (formatPublicPath "a") = formatPublicPath "a" ∧
      (jsEndsWithSlash (formatPublicPath "a") = true ∧
        (urlRegexTest (formatPublicPath "a") = true ∨
          jsStartsWithSlash (formatPublicPath "a") = true))) := by
  refine ⟨by decide, (c10_format_public_path "a").1, (c10_format_public_path "a").2 (by decide)⟩

/-! ### C6, C7, C8 -/

/-- C6: address negotiation is idempotent across cycles.  If the cached
`this.address` has a `from` host and port both equal to the newly
resolved requested host and port, the previously negotiated actual
address is reused, the `onAddress` callback is not invoked again and the
cache is unchanged; otherwise (no cache, or a mismatch) the callback is
invoked and the new requested/negotiated pair is cached (source lines
401-431). -/
theorem c6_address_idempotence :
    (∀ (c : AddrNegotiation) (onAddr : Option (Address → Option Address)) (req : Address),
      c.reqAddr.host = req.host → c.reqAddr.port = req.port →
      resolveAddress (some c) onAddr req = some (c.toAddr, c, false)) ∧
    (∀ (f : Address → Option Address) (req t : Address), f req = some t →
      resolveAddress none (some f) req = some (t, ⟨req, t⟩, true)) ∧
    (∀ (c : AddrNegotiation) (f : Address → Option Address) (req t : Address),
      ¬(c.reqAddr.host = req.host ∧ c.reqAddr.port = req.port) → f req = some t →
      resolveAddress (some c) (some f) req = some (t, ⟨req, t⟩, true)) := by
  refine ⟨?_, ?_, ?_⟩
  · intro c onAddr req h1 h2
    simp [resolveAddress, h1, h2]
  · intro f req t hf
    simp [resolveAddress, negotiateAddress, hf]
  · intro c f req t hne hf
    simp [resolveAddress, negotiateAddress, hne, hf]

theorem c6_address_idempotence_witness :
    (resolveAddress (some ⟨⟨"0.0.0.0", 8080⟩, ⟨"127.0.0.1", 8081⟩⟩)
        (some fun _ => some ⟨"10.0.0.1", 9000⟩) ⟨"0.0.0.0", 8080⟩ =
      some (⟨"127.0.0.1", 8081⟩, ⟨⟨"0.0.0.0", 8080⟩, ⟨"127.0.0.1", 8081⟩⟩, false)) ∧
    (resolveAddress none (some fun _ => some ⟨"10.0.0.1", 9000⟩) ⟨"0.0.0.0", 8080⟩ =
      some (⟨"10.0.0.1", 9000⟩, ⟨⟨"0.0.0.0", 8080⟩, ⟨"10.0.0.1", 9000⟩⟩, true)) ∧
    (resolveAddress (some ⟨⟨"0.0.0.0", 8080⟩, ⟨"127.0.0.1", 8081⟩⟩)
        (some fun _ => some ⟨"10.0.0.1", 9000⟩) ⟨"0.0.0.0", 8082⟩ =
      some (⟨"10.0.0.1", 9000⟩, ⟨⟨"0.0.0.0", 8082⟩, ⟨"10.0.0.1", 9000⟩⟩, true)) := by
  refine ⟨c6_address_idempotence.1 _ _ _ rfl rfl, c6_address_idempotence.2.1 _ _ _ rfl,
    c6_address_idempotence.2.2 _ _ _ _ (by simp) rfl⟩

/-- C7: in development mode, when the caller supplies no explicit
host/port in `Options` and the user configuration supplies no
`devServer` host/port, the resolved dev-server host is `'0.0.0.0'`
and the resolved port is `8080`, before negotiation (source lines
386-399). -/
theorem c7_default_host_port :
    resolveDevHost none none = "0.0.0.0" ∧ resolveDevPort none none = 8080 := by
  constructor <;> rfl

/-- C8: when the user supplies no public path (falsy), or the target
mode is not one of `spa`/`pwa`/`ssr`, the derived `build.publicPath` is
the empty string when `vueRouterMode` is `'hash'` and `'/'` otherwise
(source lines 649-652). -/
theorem c8_public_path_default (publicPath : Option String) (modeName vueRouterMode : String)
    (h : truthyStr publicPath = false ∨ modeName ∉ ["spa", "pwa", "ssr"]) :
    derivePublicPath publicPath modeName vueRouterMode =
      if vueRouterMode = "hash" then "" else "/" := by
  unfold derivePublicPath
  rcases h with h | h
  · rw [if_neg]
    intro hc
    rw [h] at hc
    exact absurd hc.1 (by simp)
  · rw [if_neg]
    intro hc
    exact h hc.2

theorem c8_public_path_default_witness :
    (derivePublicPath none "spa" "hash" = if ("hash" : String) = "hash" then "" else "/") ∧
    (derivePublicPath (some "x/") "electron" "history" =
      if ("history" : String) = "hash" then "" else "/") :=
  ⟨c8_public_path_default none "spa" "hash" (Or.inl rfl),
    c8_public_path_default (some "x/") "electron" "history" (Or.inr (by decide))⟩

/-! ### C5: the snapshot depends on exactly the whitelisted subtrees -/

theorem truthy_getField (v : JValue) (k : String) (h : truthy (getField v k) = true) :
    truthy v = true := by
  cases v <;> simp [getField, truthy] at h ⊢

theorem ssrElem_factor (v : JValue) :
    (if truthy v && truthy (getField v "pwa") then (encode (getField v "pwa")).getD "" else "")
      = (if truthy (getField v "pwa") then (encode (getField v "pwa")).getD "" else "") := by
  by_cases h : truthy (getField v "pwa") = true
  · rw [truthy_getField v "pwa" h]
    simp [h]
  · simp [h]

theorem frameworkElem_factor (v : JValue) :
    (if truthy v then jsJoinElem (getField v "autoImportComponentCase") else "")
      = jsJoinElem (getField v "autoImportComponentCase") := by
  cases v <;> simp [truthy, getField, jsJoinElem]

/-- C5 as amended: the snapshot comparison reports "unchanged" whenever
the two cycles' configurations agree on all whitelisted subtrees
(`build`, `ssr.pwa`, `framework.autoImportComponentCase`, `devServer`,
`pwa`, `electron`, `bex`, `htmlVariables`), whatever their other fields
hold — the snapshot reads nothing outside the whitelist.  (The converse
direction of the original claim fails: see the counterexample.) -/
theorem c5_snapshot_whitelist_amended (c1 c2 : Conf)
    (hb : c1.build = c2.build)
    (hs : getField c1.ssr "pwa" = getField c2.ssr "pwa")
    (hf : getField c1.framework "autoImportComponentCase"
        = getField c2.framework "autoImportComponentCase")
    (hd : c1.devServer = c2.devServer)
    (hp : c1.pwa = c2.pwa)
    (he : c1.electron = c2.electron)
    (hx : c1.bex = c2.bex)
    (hh : c1.htmlVariables = c2.htmlVariables) :
    snapshotChanged c1 c2 = false := by
  have hsnap : newConfigSnapshot c1 = newConfigSnapshot c2 := by
    unfold newConfigSnapshot snapshotElems
    rw [ssrElem_factor c1.ssr, ssrElem_factor c2.ssr,
      frameworkElem_factor c1.framework, frameworkElem_factor c2.framework,
      hb, hs, hf, hd, hp, he, hx, hh]
  simp [snapshotChanged, hsnap]

/-- C5 counterexample: the two configurations differ on two whitelisted
subtrees (`ssr.pwa` and `framework.autoImportComponentCase`), yet the
comparison reports "unchanged": the eight serialized components are
joined with no separator (source line 451), so `encode(true) = "true"`
contributed by `ssr.pwa` collides with the raw string `'true'`
contributed by `autoImportComponentCase`. -/
theorem c5_counterexample :
    getField snapConfA.ssr "pwa" ≠ getField snapConfB.ssr "pwa" ∧
    getField snapConfA.framework "autoImportComponentCase"
      ≠ getField snapConfB.framework "autoImportComponentCase" ∧
    snapshotChanged snapConfA snapConfB = false := by
  refine ⟨?_, ?_, ?_⟩
  · intro h
    exact JValue.noConfusion h
  · intro h
    exact JValue.noConfusion h
  · rfl

theorem c5_snapshot_whitelist_amended_witness :
    snapshotChanged
      { build := .jobj [("minify", .jbool true)], ssr := .jobj [("pwa", .jbool true)]
        framework := .jobj [("autoImportComponentCase", .jstr "kebab")]
        devServer := .jobj [], pwa := .undef, electron := .undef, bex := .undef
        htmlVariables := .undef, other := .jstr "first" }
      { build := .jobj [("minify", .jbool true)], ssr := .jobj [("pwa", .jbool true)]
        framework := .jobj [("autoImportComponentCase", .jstr "kebab")]
        devServer := .jobj [], pwa := .undef, electron := .undef, bex := .undef
        htmlVariables := .undef, other := .jstr "second" } = false := by
  exact c5_snapshot_whitelist_amended _ _ rfl rfl rfl rfl rfl rfl rfl rfl

/-! ### C4: SchemaError (non-object factory result) policy -/

/-- C4: when the factory's result is not an object, the first cycle
(`failOnError = true`) terminates fatally, and any later cycle returns
no configuration, logs only a warning, and leaves the stored
`this.quasarConf` unchanged (source lines 290-297 and 1120). -/
theorem c4_schema_error_policy (inp : CycleInput) (st : CCState)
    (h1 : inp.factoryIsFunction = true) (h2 : inp.factoryThrows = false)
    (h3 : inp.resultIsObject = false) :
    computeConfig inp true st = (.fatal, st) ∧
    computeConfig inp false st = (.warned, st) := by
  unfold computeConfig
  rw [h1, h2, h3]
  simp

theorem c4_schema_error_policy_witness :
    computeConfig cInpSchema true cStPrev = (.fatal, cStPrev) ∧
    computeConfig cInpSchema false cStPrev = (.warned, cStPrev) :=
  c4_schema_error_policy cInpSchema cStPrev rfl rfl rfl

/-! ### C2: error policy on non-first cycles -/

/-- C2 counterexample: a ManifestError (empty `pwa.manifest.icons`) on
a non-first cycle (`failOnError = false`) terminates the process
(`process.exit(1)`, source lines 901-905) instead of degrading to a
logged warning, refuting the claim that every error in the taxonomy
degrades to a warning on non-first cycles. -/
theorem c2_counterexample :
    (computeConfig cInpManifest false cStPrev).1 = ComputeOutcome.fatal ∧
    ComputeOutcome.fatal ≠ ComputeOutcome.warned :=
  ⟨rfl, fun h => ComputeOutcome.noConfusion h⟩

/-- C2 as amended: on a non-first cycle of a watch session,
CompileError and LoadError (in the `onEnd` handler) and SchemaError and
RuntimeError (in the normalizer) are reported as logged warnings, the
process survives, and the stored configuration and pending severity are
unchanged; but NetworkError is thrown as an exception on any cycle, and
ManifestError and ConfigValueError terminate the process via
`process.exit(1)` even on non-first cycles. -/
theorem c2_error_policy_amended :
    (∀ (inp : CycleInput) (st : CCState), inp.factoryIsFunction = false →
      computeConfig inp false st = (.warned, st)) ∧
    (∀ (inp : CycleInput) (st : CCState), inp.factoryIsFunction = true →
      inp.factoryThrows = true → computeConfig inp false st = (.warned, st)) ∧
    (∀ (inp : CycleInput) (st : CCState), inp.factoryIsFunction = true →
      inp.factoryThrows = false → inp.resultIsObject = false →
      computeConfig inp false st = (.warned, st)) ∧
    (∀ (st : WatcherState) (e : BuildEndEvent), st.isFirst = false → st.isWatching = true →
      e.compileErrors = true →
      (buildOnEnd st e).2 = ⟨true, true, false, false⟩ ∧
      (buildOnEnd st e).1 = { st with tempFileExists := false }) ∧
    (∀ (st : WatcherState) (e : BuildEndEvent), st.isFirst = false → st.isWatching = true →
      e.compileErrors = false → e.requireThrows = true →
      (buildOnEnd st e).2 = ⟨true, true, false, false⟩ ∧
      (buildOnEnd st e).1 = { st with tempFileExists := false }) ∧
    (∀ (inp : CycleInput) (st : CCState), inp.factoryIsFunction = true →
      inp.factoryThrows = false → inp.resultIsObject = true → inp.devMode = true →
      inp.hasOnAddress = true → inp.onAddressRet = none → st.address = none →
      computeConfig inp false st = (.netThrow, st)) ∧
    (∀ (inp : CycleInput) (st : CCState), inp.factoryIsFunction = true →
      inp.factoryThrows = false → inp.resultIsObject = true → inp.pwaMode = true →
      inp.manifestIconsEmpty = true → inp.devMode = false →
      (computeConfig inp false st).1 = .fatal) ∧
    (∀ (inp : CycleInput) (st : CCState), inp.factoryIsFunction = true →
      inp.factoryThrows = false → inp.resultIsObject = true → inp.pwaMode = true →
      inp.manifestIconsEmpty = false → inp.workboxModeValid = false → inp.devMode = false →
      (computeConfig inp false st).1 = .fatal) := by
  refine ⟨?_, ?_, ?_, ?_, ?_, ?_, ?_, ?_⟩
  · intro inp st h1
    simp [computeConfig, h1]
  · intro inp st h1 h2
    simp [computeConfig, h1, h2]
  · intro inp st h1 h2 h3
    simp [computeConfig, h1, h2, h3]
  · intro st e h1 h2 h3
    rcases st with ⟨f, w, t, u, tp, pr⟩
    simp only at h1 h2
    subst h1; subst h2
    simp [buildOnEnd, h3]
  · intro st e h1 h2 h3 h4
    rcases st with ⟨f, w, t, u, tp, pr⟩
    simp only at h1 h2
    subst h1; subst h2
    simp [buildOnEnd, h3, h4]
  · intro inp st h1 h2 h3 h4 h5 h6 h7
    simp [computeConfig, h1, h2, h3, h4, h5, h6, h7, resolveAddress, negotiateAddress]
  · intro inp st h1 h2 h3 h4 h5 h6
    simp [computeConfig, h1, h2, h3, h4, h5, h6]
  · intro inp st h1 h2 h3 h4 h5 h6 h7
    simp [computeConfig, h1, h2, h3, h4, h5, h6, h7]

theorem c2_error_policy_amended_witness :
    computeConfig cInpNotFn false cStPrev = (.warned, cStPrev) ∧
    computeConfig cInpThrows false cStPrev = (.warned, cStPrev) ∧
    computeConfig cInpSchema false cStPrev = (.warned, cStPrev) ∧
    ((buildOnEnd stArmed ⟨true, false, .conf false⟩).2 = ⟨true, true, false, false⟩ ∧
      (buildOnEnd stArmed ⟨true, false, .conf false⟩).1 =
        { stArmed with tempFileExists := false }) ∧
    ((buildOnEnd stArmed ⟨false, true, .conf false⟩).2 = ⟨true, true, false, false⟩ ∧
      (buildOnEnd stArmed ⟨false, true, .conf false⟩).1 =
        { stArmed with tempFileExists := false }) ∧
    computeConfig cInpNet false cStPrev = (.netThrow, cStPrev) ∧
    (computeConfig cInpManifest false cStPrev).1 = .fatal ∧
    (computeConfig cInpWorkbox false cStPrev).1 = .fatal :=
  ⟨c2_error_policy_amended.1 cInpNotFn cStPrev rfl,
    c2_error_policy_amended.2.1 cInpThrows cStPrev rfl rfl,
    c2_error_policy_amended.2.2.1 cInpSchema cStPrev rfl rfl rfl,
    c2_error_policy_amended.2.2.2.1 stArmed ⟨true, false, .conf false⟩ rfl rfl rfl,
    c2_error_policy_amended.2.2.2.2.1 stArmed ⟨false, true, .conf false⟩ rfl rfl rfl rfl,
    c2_error_policy_amended.2.2.2.2.2.1 cInpNet cStPrev rfl rfl rfl rfl rfl rfl rfl,
    c2_error_policy_amended.2.2.2.2.2.2.1 cInpManifest cStPrev rfl rfl rfl rfl rfl rfl,
    c2_error_policy_amended.2.2.2.2.2.2.2 cInpWorkbox cStPrev rfl rfl rfl rfl rfl rfl rfl⟩

/-! ### C1: temporary artifact cleanup -/

/-- C1 counterexample: a successful build-finished event arriving after
the first cycle but before `watch()` is called returns at the guard of
lines 191-194 without removing the artifact esbuild just wrote, so
`tempFile` still exists after that handling completes — refuting the
claim for unarmed watch-mode build-end events. -/
theorem c1_counterexample :
    (buildOnEnd (buildOnEnd initialWatcherState (mkSuccessEvent false)).1
      (mkSuccessEvent false)).1.tempFileExists = true := rfl

/-- C1 as amended: the temporary artifact does not exist after any
one-shot handling (success, compile failure or load failure, lines
142-168) nor after any watch-mode build-end event the handler actually
processes — which includes every first-cycle event; only a non-first
event arriving while the watcher is not yet armed is skipped entirely
and can leave the artifact in place. -/
theorem c1_tempfile_amended :
    (∀ (compileFails loadFails : Bool), (buildOneShot compileFails loadFails).2 = false) ∧
    (∀ (st : WatcherState) (e : BuildEndEvent), (buildOnEnd st e).2.processed = true →
      (buildOnEnd st e).1.tempFileExists = false) ∧
    (∀ (st : WatcherState) (e : BuildEndEvent), st.isFirst = true →
      (buildOnEnd st e).2.processed = true) := by
  refine ⟨?_, ?_, ?_⟩
  · intro cf lf
    cases cf <;> cases lf <;> rfl
  · intro st e h
    rcases st with ⟨f, w, t, u, tp, pr⟩
    rcases e with ⟨ce, rt, comp⟩
    cases f <;> cases w <;> cases ce <;> cases rt <;> cases comp <;>
      simp_all [buildOnEnd]
  · intro st e h
    rcases st with ⟨f, w, t, u, tp, pr⟩
    rcases e with ⟨ce, rt, comp⟩
    simp only at h
    subst h
    cases ce <;> cases rt <;> cases comp <;> simp [buildOnEnd]

theorem c1_tempfile_amended_witness :
    (buildOneShot true false).2 = false ∧
    (buildOnEnd stArmed (mkSuccessEvent false)).1.tempFileExists = false ∧
    (buildOnEnd initialWatcherState (mkSuccessEvent false)).2.processed = true :=
  ⟨c1_tempfile_amended.1 true false,
    c1_tempfile_amended.2.1 stArmed (mkSuccessEvent false) rfl,
    c1_tempfile_amended.2.2 initialWatcherState (mkSuccessEvent false) rfl⟩

/-! ### C9: behaviour while the watcher is unarmed -/

/-- C9 counterexample: the second successful build-finished event of a
session, arriving while the watcher is still unarmed, is not processed
at all — the handler returns at the guard of lines 191-194 before
loading or normalizing — refuting the claim that every build-finished
event received before arming is fully processed. -/
theorem c9_counterexample :
    (buildOnEnd (buildOnEnd initialWatcherState (mkSuccessEvent false)).1
      (mkSuccessEvent false)).2.processed = false := rfl

/-- C9 as amended: while the watch state is Unarmed, the first
build-finished event is fully processed so the first cycle's promise
can resolve, and no update notification is ever delivered (nothing is
scheduled while unarmed, and an idle timer fires nothing); but a
non-first build-finished event received while still unarmed is not
processed at all: the handler returns at the guard, leaving the pending
severity, the timer and the resolved promise untouched. -/
theorem c9_unarmed_amended :
    (∀ (e : BuildEndEvent), (buildOnEnd initialWatcherState e).2.processed = true) ∧
    (∀ (st : WatcherState) (e : BuildEndEvent), st.isFirst = false → st.isWatching = false →
      (buildOnEnd st e).2.processed = false ∧
      (buildOnEnd st e).1.updateFn = st.updateFn ∧
      (buildOnEnd st e).1.timerPending = st.timerPending ∧
      (buildOnEnd st e).1.promiseResolved = st.promiseResolved) ∧
    (∀ (st : WatcherState) (e : BuildEndEvent), st.isWatching = false →
      st.timerPending = false → (buildOnEnd st e).1.timerPending = false) ∧
    (∀ (st : WatcherState), st.timerPending = false → (timerFire st).2 = none) := by
  refine ⟨?_, ?_, ?_, ?_⟩
  · intro e
    rcases e with ⟨ce, rt, comp⟩
    cases ce <;> cases rt <;> cases comp <;> simp [buildOnEnd, initialWatcherState]
  · intro st e h1 h2
    rcases st with ⟨f, w, t, u, tp, pr⟩
    simp only at h1 h2
    subst h1; subst h2
    simp [buildOnEnd]
  · intro st e h1 h2
    rcases st with ⟨f, w, t, u, tp, pr⟩
    rcases e with ⟨ce, rt, comp⟩
    simp only at h1 h2
    subst h1; subst h2
    cases f <;> cases ce <;> cases rt <;> cases comp <;> simp [buildOnEnd]
  · intro st h
    simp [timerFire, h]

theorem c9_unarmed_amended_witness :
    (buildOnEnd initialWatcherState (mkSuccessEvent true)).2.processed = true ∧
    ((buildOnEnd stUnarmed (mkSuccessEvent false)).2.processed = false ∧
      (buildOnEnd stUnarmed (mkSuccessEvent false)).1.updateFn = stUnarmed.updateFn ∧
      (buildOnEnd stUnarmed (mkSuccessEvent false)).1.timerPending = stUnarmed.timerPending ∧
      (buildOnEnd stUnarmed (mkSuccessEvent false)).1.promiseResolved
        = stUnarmed.promiseResolved) ∧
    (buildOnEnd stUnarmed (mkSuccessEvent false)).1.timerPending = false ∧
    (timerFire stUnarmed).2 = none :=
  ⟨c9_unarmed_amended.1 (mkSuccessEvent true),
    c9_unarmed_amended.2.1 stUnarmed (mkSuccessEvent false) rfl rfl,
    c9_unarmed_amended.2.2.1 stUnarmed (mkSuccessEvent false) rfl rfl,
    c9_unarmed_amended.2.2.2 stUnarmed rfl⟩

/-! ### C3: debounced coalescing of successful non-first events -/

theorem buildOnEnd_success_armed (st : WatcherState) (wc : Bool)
    (h1 : st.isFirst = false) (h2 : st.isWatching = true) :
    (buildOnEnd st (mkSuccessEvent wc)).1 =
      { st with tempFileExists := false
                updateFn := some (if st.updateFn = some UpdateKind.onBuildChange ∨ wc = true
                  then UpdateKind.onBuildChange else UpdateKind.onAppChange)
                timerPending := true } := by
  rcases st with ⟨f, w, t, u, tp, pr⟩
  simp only at h1 h2
  subst h1; subst h2
  simp [buildOnEnd, mkSuccessEvent]

theorem runBuildEnds_success (ws : List Bool) (st : WatcherState)
    (h1 : st.isFirst = false) (h2 : st.isWatching = true) :
    (runBuildEnds st (ws.map mkSuccessEvent)).isFirst = false ∧
    (runBuildEnds st (ws.map mkSuccessEvent)).isWatching = true ∧
    (runBuildEnds st (ws.map mkSuccessEvent)).updateFn = escalateRun st.updateFn ws ∧
    (runBuildEnds st (ws.map mkSuccessEvent)).timerPending =
      (if ws = [] then st.timerPending else true) := by
  induction ws generalizing st with
  | nil => simp [runBuildEnds, escalateRun, h1, h2]
  | cons w rest ih =>
    have hrun : runBuildEnds st ((w :: rest).map mkSuccessEvent) =
        runBuildEnds (buildOnEnd st (mkSuccessEvent w)).1 (rest.map mkSuccessEvent) := rfl
    rw [hrun, buildOnEnd_success_armed st w h1 h2]
    obtain ⟨i1, i2, i3, i4⟩ := ih
      { st with tempFileExists := false
                updateFn := some (if st.updateFn = some UpdateKind.onBuildChange ∨ w = true
                  then UpdateKind.onBuildChange else UpdateKind.onAppChange)
                timerPending := true } (by simp [h1]) (by simp [h2])
    refine ⟨i1, i2, ?_, ?_⟩
    · rw [i3]
      rfl
    · rw [i4]
      simp

theorem escalateRun_eq (ws : List Bool) (u : Option UpdateKind) (h : ws ≠ []) :
    escalateRun u ws = some (if u = some UpdateKind.onBuildChange ∨ ws.any id = true
      then UpdateKind.onBuildChange else UpdateKind.onAppChange) := by
  induction ws generalizing u with
  | nil => exact absurd rfl h
  | cons w rest ih =>
    have hstep : escalateRun u (w :: rest) = escalateRun
        (some (if u = some UpdateKind.onBuildChange ∨ w = true then UpdateKind.onBuildChange
          else UpdateKind.onAppChange)) rest := rfl
    by_cases hr : rest = []
    · subst hr
      rw [hstep]
      show some _ = _
      simp [escalateRun]
    · rw [hstep, ih _ hr]
      cases w with
      | true => simp
      | false =>
        by_cases hu : u = some UpdateKind.onBuildChange
        · simp [hu]
        · simp [hu]

/-- C3: for every non-empty sequence of successful non-first
build-finished events handled within one coalescing window (armed
watcher, no pending severity at the window's start), exactly one of the
two watch callbacks fires when the timer elapses — `onBuildChange` if
any event in the window had a pipeline-affecting snapshot change,
otherwise `onAppChange` — a second timer expiry fires nothing, and a
pending `onBuildChange` severity is never downgraded by a later
app-level result (source lines 179-182 and 239-248). -/
theorem c3_debounce_coalescing (ws : List Bool) (st : WatcherState)
    (hne : ws ≠ []) (h1 : st.isFirst = false) (h2 : st.isWatching = true)
    (h3 : st.updateFn = none) :
    (timerFire (runBuildEnds st (ws.map mkSuccessEvent))).2 =
      some (if ws.any id = true then UpdateKind.onBuildChange else UpdateKind.onAppChange) ∧
    (timerFire (timerFire (runBuildEnds st (ws.map mkSuccessEvent))).1).2 = none ∧
    (∀ (st2 : WatcherState) (wc : Bool), st2.isFirst = false → st2.isWatching = true →
      st2.updateFn = some UpdateKind.onBuildChange →
      (buildOnEnd st2 (mkSuccessEvent wc)).1.updateFn = some UpdateKind.onBuildChange) := by
  obtain ⟨i1, i2, i3, i4⟩ := runBuildEnds_success ws st h1 h2
  rw [h3] at i3
  rw [escalateRun_eq ws none hne] at i3
  have hfn : (runBuildEnds st (ws.map mkSuccessEvent)).updateFn =
      some (if ws.any id = true then UpdateKind.onBuildChange else UpdateKind.onAppChange) := by
    rw [i3]
    simp
  have hpend : (runBuildEnds st (ws.map mkSuccessEvent)).timerPending = true := by
    rw [i4]
    simp [hne]
  refine ⟨?_, ?_, ?_⟩
  · simp [timerFire, hpend, hfn]
  · simp [timerFire, hpend]
  · intro st2 wc g1 g2 g3
    rw [buildOnEnd_success_armed st2 wc g1 g2]
    simp [g3]

theorem c3_debounce_coalescing_witness :
    (timerFire (runBuildEnds stArmed ([false, true].map mkSuccessEvent))).2 =
      some (if [false, true].any id = true then UpdateKind.onBuildChange
        else UpdateKind.onAppChange) ∧
    (timerFire (timerFire (runBuildEnds stArmed ([false, true].map mkSuccessEvent))).1).2
      = none ∧
    (buildOnEnd { stArmed with updateFn := some UpdateKind.onBuildChange }
      (mkSuccessEvent false)).1.updateFn = some UpdateKind.onBuildChange := by
  obtain ⟨a, b, c⟩ := c3_debounce_coalescing [false, true] stArmed (by simp) rfl rfl rfl
  exact ⟨a, b, c _ false rfl rfl rfl⟩
